import Mathlib

/-!
Shallow embedding of the test-files library (src/src/lib.rs): a temporary
directory owned by a `TestFiles` value, a fallible `tryFile` that joins the
root path with a slash-separated relative path, converts it to a string and
hands it to the external write collaborator, plus the panicking wrappers
`file` and `new`, the accessor `path`, and scope-end cleanup.

Filesystem effects are made explicit: every operation that touches the disk
takes and returns an `FS` value (files as an association list from absolute
path components to contents, plus a list of directories).  Paths are kept as
their slash components, so that a Rust path string `s` is represented by
`splitComps s.data`.
-/

/-- Splits a character list at every slash, mirroring how a slash-separated
path string decomposes into components (as Rust's split on the slash: the
empty string gives one empty component, a leading slash an empty head). -/
def splitComps : List Char → List String
  | [] => [""]
  | c :: rest =>
    if c = '/' then "" :: splitComps rest
    else
      match splitComps rest with
      | [] => [⟨[c]⟩]
      | h :: t => ⟨c :: h.data⟩ :: t

/-- The slash components of a path string. -/
def strToComps (s : String) : List String := splitComps s.data

/-- Rust Path::has_root on Unix: the path string begins with a slash. -/
def isAbsolute (s : String) : Bool :=
  match s.data with
  | [] => false
  | c :: _ => c = '/'

/-- A Rust platform path (PathBuf/OsStr): either valid UTF-8, kept as its
slash components, or not valid UTF-8, kept as an opaque tag. -/
inductive OsPath where
  | utf8 (comps : List String)
  | nonUtf8 (tag : Nat)
  deriving DecidableEq, Repr

/-- Rust Path::join: pushing an absolute path replaces the base wholesale;
otherwise the components are appended.  Appending UTF-8 components to a
non-UTF-8 base leaves it non-UTF-8. -/
def OsPath.join (base : OsPath) (p : String) : OsPath :=
  if isAbsolute p then .utf8 (strToComps p)
  else
    match base with
    | .utf8 cs => .utf8 (cs ++ strToComps p)
    | .nonUtf8 t => .nonUtf8 t

/-- Rust Path::to_str: succeeds exactly on valid UTF-8, here yielding the
component list of the path. -/
def OsPath.toStr : OsPath → Option (List String)
  | .utf8 cs => some cs
  | .nonUtf8 _ => none

/-- Modelled from the spec (section 6): the error of the external
directory-creation-and-file-write collaborator, the touch crate. -/
structure TouchError where
  msg : String
  deriving DecidableEq, Repr

/-- Modelled from the spec (section 6): an OS I/O error, std::io::Error. -/
structure IoError where
  msg : String
  deriving DecidableEq, Repr

/-- The error enum of the library: a path error carrying the offending
relative path argument, a wrapped write error from the external write
collaborator, and a wrapped I/O error from temp-dir provisioning. -/
inductive TestFilesError where
  | PathError (path : String)
  | FileWriteError (e : TouchError)
  | TempDirError (e : IoError)
  deriving DecidableEq, Repr

/-- The filesystem fragment the library touches: files as an association
list from absolute path components to contents, and the set of existing
directories as a list of absolute path components. -/
structure FS where
  files : List (List String × String)
  dirs : List (List String)
  deriving DecidableEq, Repr

/-- Whether q is at or beneath root: root is an initial run of q. -/
def isUnder (root q : List String) : Bool := decide (q.take root.length = root)

/-- The proper ancestors of a path: every strictly shorter initial run of
its components. -/
def ancestorsOf (p : List String) : List (List String) :=
  (List.range p.length).map (fun i => p.take i)

/-- True when the string holds a NUL byte, which no OS path syscall
accepts. -/
def hasNul (s : String) : Bool := s.data.any (fun c => c = '\x00')

/-- Modelled from the spec (section 6): the external recursive directory
creation plus file write collaborator (the touch crate's write with
overwrite set): creates every missing intermediate directory of the target,
then creates or truncates the target file and writes the content in full;
fails with a write error on an invalid filename, such as one holding a NUL
byte (section 7). -/
def touchWrite (fs : FS) (target : List String) (content : String) :
    Except TouchError FS :=
  if target.any (fun c => hasNul c) then .error ⟨"invalid path"⟩
  else .ok
    { files := (target, content) :: fs.files.filter (fun e => decide (e.1 ≠ target)),
      dirs := fs.dirs ++ (ancestorsOf target).filter (fun d => decide (d ∉ fs.dirs)) }

/-- TestFiles wraps the temporary directory, kept as its root path. -/
structure TestFiles where
  root : OsPath
  deriving DecidableEq, Repr

/-- Returns the path of the underlying temporary directory. -/
def TestFiles.path (tf : TestFiles) : OsPath := tf.root

/-- Joins the root path with the relative path argument. -/
def TestFiles.slash (tf : TestFiles) (relativePath : String) : OsPath :=
  tf.path.join relativePath

/-- try_file: joins the root with the relative path, converts the joined
path to a string — failing with a path error naming the relative argument —
then hands it to the external write collaborator, and on success returns
the same object together with the updated filesystem. -/
def TestFiles.tryFile (tf : TestFiles) (fs : FS) (path content : String) :
    Except TestFilesError (TestFiles × FS) :=
  match (tf.slash path).toStr with
  | none => .error (.PathError path)
  | some target =>
    match touchWrite fs target content with
    | .error e => .error (.FileWriteError e)
    | .ok fs' => .ok (tf, fs')

/-- The outcome of a call that may abort the process instead of returning. -/
inductive Aborts (α : Type) where
  | value (a : α)
  | abort
  deriving DecidableEq, Repr

/-- Rust Result::unwrap: the value on Ok, a process abort on Err. -/
def unwrap {ε α : Type} : Except ε α → Aborts α
  | .ok a => .value a
  | .error _ => .abort

/-- file: the panicking wrapper, try_file followed by unwrap. -/
def TestFiles.file (tf : TestFiles) (fs : FS) (path content : String) :
    Aborts (TestFiles × FS) :=
  unwrap (tf.tryFile fs path content)

/-- Modelled from the spec (section 6): the external temporary-directory
provisioning collaborator (the tempfile crate's tempdir).  The OS outcome —
a fresh uniquely-named directory, or an I/O error — is passed in as an
argument; on success the fresh directory is recorded as existing. -/
def tempdir (fs : FS) (osOutcome : Except IoError (List String)) :
    Except IoError (List String × FS) :=
  match osOutcome with
  | .error e => .error e
  | .ok fresh => .ok (fresh, { fs with dirs := fresh :: fs.dirs })

/-- try_new: provisions a temporary directory and wraps it, converting the
OS failure into the TempDirError variant. -/
def TestFiles.tryNew (fs : FS) (osOutcome : Except IoError (List String)) :
    Except TestFilesError (TestFiles × FS) :=
  match tempdir fs osOutcome with
  | .error e => .error (.TempDirError e)
  | .ok (d, fs') => .ok (⟨.utf8 d⟩, fs')

/-- new: the panicking wrapper, try_new followed by unwrap. -/
def TestFiles.new (fs : FS) (osOutcome : Except IoError (List String)) :
    Aborts (TestFiles × FS) :=
  unwrap (TestFiles.tryNew fs osOutcome)

/-- Modelled from the spec (sections 4 and 7): scope-end cleanup performed
by the temp-dir collaborator's destructor — recursively removes the root
and everything beneath it; best-effort and total, it never reports an
error. -/
def TestFiles.drop (tf : TestFiles) (fs : FS) : FS :=
  match tf.root with
  | .utf8 root =>
    { files := fs.files.filter (fun e => !(isUnder root e.1)),
      dirs := fs.dirs.filter (fun d => !(isUnder root d)) }
  | .nonUtf8 _ => fs

/-- Reading a file back: the content stored at the given absolute path. -/
def FS.readFile (fs : FS) (p : List String) : Option String :=
  (fs.files.find? (fun e => decide (e.1 = p))).map (fun e => e.2)

/-- Discriminates the PathError variant of a try_file result. -/
def isPathError {α : Type} : Except TestFilesError α → Bool
  | .error (.PathError _) => true
  | _ => false

/-- A sample live object: a UTF-8 root under the OS temp location. -/
def tf0 : TestFiles := ⟨.utf8 ["", "tmp", "td0"]⟩

/-- A sample filesystem in which tf0's root and its ancestors exist and the
root is empty. -/
def fs0 : FS := ⟨[], [[], [""], ["", "tmp"], ["", "tmp", "td0"]]⟩

/-- Success of try_file unpacked: the joined path converts to a platform
string with no NUL byte, the same object is returned, and the filesystem
gains the target file and its missing ancestor directories. -/
theorem tryFile_ok_elim {tf tf' : TestFiles} {fs fs' : FS} {p c : String}
    (h : tf.tryFile fs p c = .ok (tf', fs')) :
    ∃ target, (tf.slash p).toStr = some target ∧
      (target.any fun s => hasNul s) = false ∧
      tf' = tf ∧
      fs' = { files := (target, c) :: fs.files.filter (fun e => decide (e.1 ≠ target)),
              dirs := fs.dirs ++ (ancestorsOf target).filter (fun d => decide (d ∉ fs.dirs)) } := by
  unfold TestFiles.tryFile at h
  split at h
  · simp at h
  next target ht =>
    split at h
    · simp at h
    next fs2 htw =>
      unfold touchWrite at htw
      by_cases hn : (target.any fun s => hasNul s) = true
      · rw [if_pos hn] at htw; simp at htw
      · rw [if_neg hn] at htw
        simp only [Except.ok.injEq] at htw
        simp only [Except.ok.injEq, Prod.mk.injEq] at h
        exact ⟨target, ht, Bool.eq_false_iff.mpr hn, h.1.symm, by rw [← h.2, ← htw]⟩

/-- C1: for every relative path and string content, after a successful
try_file (or file) call, reading the file at the joined path root_path/p
yields exactly the written content, byte for byte. -/
theorem C1_roundTrip (tf tf' : TestFiles) (fs fs' : FS)
    (p c : String) (target : List String)
    (ht : (tf.slash p).toStr = some target)
    (hok : tf.tryFile fs p c = .ok (tf', fs')) :
    fs'.readFile target = some c := by
  obtain ⟨t, ht', hn, htf, hfs⟩ := tryFile_ok_elim hok
  rw [ht] at ht'
  injection ht' with hteq
  subst hteq
  subst hfs
  simp [FS.readFile, List.find?]

/-- C1 witness: a concrete successful write followed by a read-back of the
same content. -/
theorem C1_roundTrip_witness :
    FS.readFile ⟨[(["", "tmp", "td0", "a", "b.txt"], "ok")],
        [[], [""], ["", "tmp"], ["", "tmp", "td0"], ["", "tmp", "td0", "a"]]⟩
      ["", "tmp", "td0", "a", "b.txt"] = some "ok" :=
  C1_roundTrip tf0 tf0 fs0
    ⟨[(["", "tmp", "td0", "a", "b.txt"], "ok")],
     [[], [""], ["", "tmp"], ["", "tmp", "td0"], ["", "tmp", "td0", "a"]]⟩
    "a/b.txt" "ok" ["", "tmp", "td0", "a", "b.txt"] rfl rfl

/-- C3 counterexample: a relative path holding a NUL byte is accepted by
the platform-string conversion — a Rust string is always valid UTF-8 — so
try_file does not return a path error for it; the failure comes from the
write collaborator as a wrapped write error. -/
theorem C3_cex :
    isPathError (tf0.tryFile fs0 "a\x00b" "x") = false ∧
    tf0.tryFile fs0 "a\x00b" "x" =
      .error (.FileWriteError ⟨"invalid path"⟩) := ⟨rfl, rfl⟩

/-- C3 amended: try_file returns a path error exactly when the joined path
root_path/p has no platform string representation — which, as the relative
argument is itself a string, depends on the root rather than on the
argument alone — and in that case the error names the relative argument and
is raised before the write collaborator ever runs, leaving the filesystem
untouched. -/
theorem C3_pathError_iff (tf : TestFiles) (fs : FS) (p c : String) :
    (isPathError (tf.tryFile fs p c) = true ↔ (tf.slash p).toStr = none) ∧
    ((tf.slash p).toStr = none → tf.tryFile fs p c = .error (.PathError p)) := by
  unfold TestFiles.tryFile
  cases ht : (tf.slash p).toStr with
  | none => simp [isPathError]
  | some target =>
    cases htw : touchWrite fs target c with
    | error e => simp [htw, isPathError]
    | ok fs2 => simp [htw, isPathError]

/-- C3 witness: a non-UTF-8 root makes the conversion of the joined path
fail, and try_file reports the path error naming the relative argument
without touching the filesystem. -/
theorem C3_pathError_iff_witness :
    TestFiles.tryFile ⟨.nonUtf8 7⟩ fs0 "a.txt" "x" = .error (.PathError "a.txt") :=
  (C3_pathError_iff ⟨.nonUtf8 7⟩ fs0 "a.txt" "x").2 rfl

/-- C10 counterexample: with a non-UTF-8 root, a try_file call whose
argument is an absolute path does not return a path error at all — the
join replaces the root wholesale, the conversion then succeeds, and the
file is written outside the root. -/
theorem C10_cex :
    isPathError ((TestFiles.mk (.nonUtf8 0)).tryFile fs0 "/tmp/evil" "x") = false ∧
    (TestFiles.mk (.nonUtf8 0)).tryFile fs0 "/tmp/evil" "x" =
      .ok (⟨.nonUtf8 0⟩, ⟨[(["", "tmp", "evil"], "x")], fs0.dirs⟩) := ⟨rfl, rfl⟩

/-- C10 amended: the platform-string check applies to the joined path, so
with a non-UTF-8 root every try_file call whose argument is not an absolute
path returns a path error whose reported path field is the relative
argument alone, however valid that argument is; an absolute argument
instead replaces the root at the join. -/
theorem C10_nonUtf8Root (t : Nat) (fs : FS) (p c : String)
    (habs : isAbsolute p = false) :
    (TestFiles.mk (.nonUtf8 t)).tryFile fs p c = .error (.PathError p) := by
  unfold TestFiles.tryFile TestFiles.slash TestFiles.path OsPath.join
  simp [habs, OsPath.toStr]

/-- C10 witness: a concrete non-UTF-8 root and a well-formed relative
argument give the path error naming that argument. -/
theorem C10_nonUtf8Root_witness :
    (TestFiles.mk (.nonUtf8 3)).tryFile fs0 "a/b.txt" "x" =
      .error (.PathError "a/b.txt") :=
  C10_nonUtf8Root 3 fs0 "a/b.txt" "x" rfl

/-- C2 counterexample: an absolute relative-path argument is accepted by
try_file but escapes the root — Path::join replaces the base wholesale — so
the call creates a file and a fresh directory outside root_path. -/
theorem C2_cex :
    tf0.tryFile fs0 "/etc/evil" "x" =
      .ok (tf0, ⟨[(["", "etc", "evil"], "x")],
          [[], [""], ["", "tmp"], ["", "tmp", "td0"], ["", "etc"]]⟩) ∧
    isUnder ["", "tmp", "td0"] ["", "etc", "evil"] = false ∧
    isUnder ["", "tmp", "td0"] ["", "etc"] = false := ⟨rfl, rfl, rfl⟩

/-- C2 amended: for every relative-path argument that is not an absolute
path and has no parent-directory components, a successful try_file (or
file) call confines its filesystem effects to locations beneath root_path:
every file or directory of the result is either preexisting or beneath the
root, the only new file is the one at the joined path, and that file holds
the written content — provided the root's ancestors and the root itself
already exist, as temp-dir provisioning guarantees. -/
theorem C2_confined (tf tf' : TestFiles) (fs fs' : FS)
    (root : List String) (p c : String)
    (hr : tf.root = .utf8 root)
    (habs : isAbsolute p = false)
    (_hdots : (strToComps p).all (fun s => decide (s ≠ "..")) = true)
    (hanc : (List.range (root.length + 1)).all
        (fun i => decide (root.take i ∈ fs.dirs)) = true)
    (hok : tf.tryFile fs p c = .ok (tf', fs')) :
    fs'.files.all (fun e => decide (e ∈ fs.files) || isUnder root e.1) = true ∧
    fs'.dirs.all (fun d => decide (d ∈ fs.dirs) || isUnder root d) = true ∧
    fs'.files.all (fun e =>
      decide (e ∈ fs.files) || decide (e.1 = root ++ strToComps p)) = true ∧
    fs'.readFile (root ++ strToComps p) = some c := by
  have htarget : (tf.slash p).toStr = some (root ++ strToComps p) := by
    simp [TestFiles.slash, TestFiles.path, hr, OsPath.join, habs, OsPath.toStr]
  obtain ⟨t, ht', hn, htf, hfs⟩ := tryFile_ok_elim hok
  rw [htarget] at ht'
  injection ht' with hteq
  subst hteq
  subst hfs
  refine ⟨?_, ?_, ?_, ?_⟩
  · rw [List.all_eq_true]
    intro e he
    rcases List.mem_cons.mp he with he | he
    · simp [he, isUnder, List.take_left]
    · simp [List.mem_of_mem_filter he]
  · rw [List.all_eq_true]
    intro d hd
    rcases List.mem_append.mp hd with hd | hd
    · simp [hd]
    · rcases List.mem_filter.mp hd with ⟨hmem, hnot⟩
      have hd' : d ∉ fs.dirs := of_decide_eq_true hnot
      rcases List.mem_map.mp hmem with ⟨i, hi, hdi⟩
      subst hdi
      by_cases hle : i ≤ root.length
      · have h1 : (root ++ strToComps p).take i = root.take i :=
          List.take_append_of_le_length hle
        have h2 : root.take i ∈ fs.dirs :=
          of_decide_eq_true (List.all_eq_true.mp hanc i
            (List.mem_range.mpr (Nat.lt_succ_of_le hle)))
        exact absurd (h1 ▸ h2) hd'
      · have hlt : root.length < i := Nat.lt_of_not_le hle
        have h3 : ((root ++ strToComps p).take i).take root.length
            = (root ++ strToComps p).take root.length := by
          rw [List.take_take]
          congr 1
          exact Nat.min_eq_left (Nat.le_of_lt hlt)
        have h4 : (root ++ strToComps p).take root.length = root :=
          List.take_left root (strToComps p)
        simp [isUnder, h3, h4]
  · rw [List.all_eq_true]
    intro e he
    rcases List.mem_cons.mp he with he | he
    · simp [he]
    · simp [List.mem_of_mem_filter he]
  · simp [FS.readFile, List.find?]

/-- C2 witness: a concrete well-formed relative write whose every effect is
beneath the root. -/
theorem C2_confined_witness :
    (FS.files ⟨[(["", "tmp", "td0", "a", "b.txt"], "ok")],
        [[], [""], ["", "tmp"], ["", "tmp", "td0"], ["", "tmp", "td0", "a"]]⟩).all
      (fun e => decide (e ∈ fs0.files) || isUnder ["", "tmp", "td0"] e.1) = true ∧
    (FS.dirs ⟨[(["", "tmp", "td0", "a", "b.txt"], "ok")],
        [[], [""], ["", "tmp"], ["", "tmp", "td0"], ["", "tmp", "td0", "a"]]⟩).all
      (fun d => decide (d ∈ fs0.dirs) || isUnder ["", "tmp", "td0"] d) = true ∧
    (FS.files ⟨[(["", "tmp", "td0", "a", "b.txt"], "ok")],
        [[], [""], ["", "tmp"], ["", "tmp", "td0"], ["", "tmp", "td0", "a"]]⟩).all
      (fun e => decide (e ∈ fs0.files) ||
        decide (e.1 = ["", "tmp", "td0"] ++ strToComps "a/b.txt")) = true ∧
    FS.readFile ⟨[(["", "tmp", "td0", "a", "b.txt"], "ok")],
        [[], [""], ["", "tmp"], ["", "tmp", "td0"], ["", "tmp", "td0", "a"]]⟩
      (["", "tmp", "td0"] ++ strToComps "a/b.txt") = some "ok" :=
  C2_confined tf0 tf0 fs0
    ⟨[(["", "tmp", "td0", "a", "b.txt"], "ok")],
     [[], [""], ["", "tmp"], ["", "tmp", "td0"], ["", "tmp", "td0", "a"]]⟩
    ["", "tmp", "td0"] "a/b.txt" "ok" rfl rfl (by decide) (by decide) rfl

/-- C4: writing twice to the same path leaves the file holding exactly the
second content — the second write truncates and overwrites, it does not
append — and no entry for that path holds any residue of the first. -/
theorem C4_overwrite (tf tf1 tf2 : TestFiles) (fs fs1 fs2 : FS)
    (p c1 c2 : String) (target : List String)
    (ht : (tf.slash p).toStr = some target)
    (h1 : tf.tryFile fs p c1 = .ok (tf1, fs1))
    (h2 : tf1.tryFile fs1 p c2 = .ok (tf2, fs2)) :
    fs2.readFile target = some c2 ∧
    fs2.files.all
      (fun e => !(decide (e.1 = target)) || decide (e.2 = c2)) = true := by
  obtain ⟨t1, ht1, hn1, htf1, hfs1⟩ := tryFile_ok_elim h1
  subst htf1
  obtain ⟨t2, ht2, hn2, htf2, hfs2⟩ := tryFile_ok_elim h2
  rw [ht] at ht1 ht2
  injection ht1 with he1
  injection ht2 with he2
  subst he1
  subst he2
  subst hfs2
  constructor
  · simp [FS.readFile, List.find?]
  · rw [List.all_eq_true]
    intro e he
    rcases List.mem_cons.mp he with he | he
    · simp [he]
    · have := of_decide_eq_true (List.mem_filter.mp he).2
      simp [this]

/-- C4 witness: two concrete writes to the same path; only the second
content remains. -/
theorem C4_overwrite_witness :
    FS.readFile ⟨[(["", "tmp", "td0", "a.txt"], "two")], fs0.dirs⟩
      ["", "tmp", "td0", "a.txt"] = some "two" ∧
    (FS.files ⟨[(["", "tmp", "td0", "a.txt"], "two")], fs0.dirs⟩).all
      (fun e => !(decide (e.1 = ["", "tmp", "td0", "a.txt"])) ||
        decide (e.2 = "two")) = true :=
  C4_overwrite tf0 tf0 tf0 fs0
    ⟨[(["", "tmp", "td0", "a.txt"], "one")], fs0.dirs⟩
    ⟨[(["", "tmp", "td0", "a.txt"], "two")], fs0.dirs⟩
    "a.txt" "one" "two" ["", "tmp", "td0", "a.txt"] rfl rfl rfl

/-- C5: after the scope-end cleanup nothing at or beneath the root path
remains, neither file nor directory; the cleanup is a total function of the
state — it surfaces no error and needs no explicit call. -/
theorem C5_dropCleans (tf : TestFiles) (fs : FS) (root : List String)
    (hr : tf.root = .utf8 root) :
    ((tf.drop fs).files).all (fun e => !(isUnder root e.1)) = true ∧
    ((tf.drop fs).dirs).all (fun d => !(isUnder root d)) = true := by
  simp only [TestFiles.drop, hr]
  constructor <;>
  · rw [List.all_eq_true]
    intro x hx
    exact (List.mem_filter.mp hx).2

/-- C5 witness: a concrete state holding a file under the root and the root
directory itself; after drop neither survives. -/
theorem C5_dropCleans_witness :
    ((TestFiles.drop tf0
        ⟨[(["", "tmp", "td0", "x"], "v")], fs0.dirs⟩).files).all
      (fun e => !(isUnder ["", "tmp", "td0"] e.1)) = true ∧
    ((TestFiles.drop tf0
        ⟨[(["", "tmp", "td0", "x"], "v")], fs0.dirs⟩).dirs).all
      (fun d => !(isUnder ["", "tmp", "td0"] d)) = true :=
  C5_dropCleans tf0 ⟨[(["", "tmp", "td0", "x"], "v")], fs0.dirs⟩
    ["", "tmp", "td0"] rfl

/-- C6: the non-fallible operations are exactly the fallible ones with
abort-on-error layered on top — file agrees with try_file whenever the
latter succeeds and aborts exactly when it errs, and new relates to try_new
the same way. -/
theorem C6_unwrapLayer (tf : TestFiles) (fs : FS) (p c : String)
    (osOutcome : Except IoError (List String)) :
    (∀ r, tf.tryFile fs p c = .ok r → tf.file fs p c = .value r) ∧
    (∀ e, tf.tryFile fs p c = .error e → tf.file fs p c = .abort) ∧
    (∀ r, TestFiles.tryNew fs osOutcome = .ok r →
      TestFiles.new fs osOutcome = .value r) ∧
    (∀ e, TestFiles.tryNew fs osOutcome = .error e →
      TestFiles.new fs osOutcome = .abort) := by
  refine ⟨?_, ?_, ?_, ?_⟩ <;> intro x h <;>
    simp [TestFiles.file, TestFiles.new, unwrap, h]

/-- C6 witness: on a concrete successful write, file returns exactly what
try_file returned. -/
theorem C6_unwrapLayer_witness :
    tf0.file fs0 "a.txt" "x" =
      .value (tf0, ⟨[(["", "tmp", "td0", "a.txt"], "x")], fs0.dirs⟩) :=
  (C6_unwrapLayer tf0 fs0 "a.txt" "x" (.ok [])).1
    (tf0, ⟨[(["", "tmp", "td0", "a.txt"], "x")], fs0.dirs⟩) rfl

/-- C7: try_file hands back the same object, so a second write chains on
the return value; after two successful writes at distinct joined paths both
files exist under the same root with their respective contents. -/
theorem C7_chain (tf tf1 tf2 : TestFiles) (fs fs1 fs2 : FS)
    (p1 p2 c1 c2 : String) (t1 t2 : List String)
    (ht1 : (tf.slash p1).toStr = some t1)
    (ht2 : (tf.slash p2).toStr = some t2)
    (hne : t1 ≠ t2)
    (h1 : tf.tryFile fs p1 c1 = .ok (tf1, fs1))
    (h2 : tf1.tryFile fs1 p2 c2 = .ok (tf2, fs2)) :
    tf1 = tf ∧ tf2 = tf ∧
    fs2.readFile t1 = some c1 ∧ fs2.readFile t2 = some c2 := by
  obtain ⟨s1, hs1, hn1, htf1, hfs1⟩ := tryFile_ok_elim h1
  subst htf1
  obtain ⟨s2, hs2, hn2, htf2, hfs2⟩ := tryFile_ok_elim h2
  subst htf2
  rw [ht1] at hs1
  rw [ht2] at hs2
  injection hs1 with he1
  injection hs2 with he2
  subst he1
  subst he2
  subst hfs1
  subst hfs2
  refine ⟨rfl, rfl, ?_, ?_⟩
  · unfold FS.readFile
    rw [List.find?_cons_of_neg _ (by simp [Ne.symm hne])]
    rw [List.filter_cons, if_pos (by simp [hne])]
    rw [List.find?_cons_of_pos _ (by simp)]
    rfl
  · simp [FS.readFile, List.find?]

/-- C7 witness: the two documented example writes; both files exist with
their contents afterward. -/
theorem C7_chain_witness :
    tf0 = tf0 ∧ tf0 = tf0 ∧
    FS.readFile ⟨[(["", "tmp", "td0", "b", "c.txt"], "fine"),
        (["", "tmp", "td0", "a", "b.txt"], "ok")],
        [[], [""], ["", "tmp"], ["", "tmp", "td0"], ["", "tmp", "td0", "a"],
         ["", "tmp", "td0", "b"]]⟩
      ["", "tmp", "td0", "a", "b.txt"] = some "ok" ∧
    FS.readFile ⟨[(["", "tmp", "td0", "b", "c.txt"], "fine"),
        (["", "tmp", "td0", "a", "b.txt"], "ok")],
        [[], [""], ["", "tmp"], ["", "tmp", "td0"], ["", "tmp", "td0", "a"],
         ["", "tmp", "td0", "b"]]⟩
      ["", "tmp", "td0", "b", "c.txt"] = some "fine" :=
  C7_chain tf0 tf0 tf0 fs0
    ⟨[(["", "tmp", "td0", "a", "b.txt"], "ok")],
     [[], [""], ["", "tmp"], ["", "tmp", "td0"], ["", "tmp", "td0", "a"]]⟩
    ⟨[(["", "tmp", "td0", "b", "c.txt"], "fine"),
      (["", "tmp", "td0", "a", "b.txt"], "ok")],
     [[], [""], ["", "tmp"], ["", "tmp", "td0"], ["", "tmp", "td0", "a"],
      ["", "tmp", "td0", "b"]]⟩
    "a/b.txt" "b/c.txt" "ok" "fine"
    ["", "tmp", "td0", "a", "b.txt"] ["", "tmp", "td0", "b", "c.txt"]
    rfl rfl (by decide) rfl rfl

/-- C8: path is a pure accessor of the object: it returns the root assigned
at construction, and since try_file hands back the very same object, the
value of path is unchanged by any number of file operations. -/
theorem C8_pathStable (tfn tf tf' : TestFiles) (fsa fsb fsc fsd : FS)
    (p c : String) (d : List String)
    (osOutcome : Except IoError (List String)) :
    (TestFiles.tryNew fsa osOutcome = .ok (tfn, fsb) → osOutcome = .ok d →
      tfn.path = .utf8 d) ∧
    (tf.tryFile fsc p c = .ok (tf', fsd) → tf'.path = tf.path) := by
  constructor
  · intro h1 h2
    subst h2
    unfold TestFiles.tryNew tempdir at h1
    simp only [Except.ok.injEq, Prod.mk.injEq] at h1
    rw [← h1.1]
    rfl
  · intro h
    obtain ⟨t, _, _, htf, _⟩ := tryFile_ok_elim h
    rw [htf]

/-- C8 witness: a concretely constructed object reports the provisioned
root, and a successful write leaves the reported path identical. -/
theorem C8_pathStable_witness :
    TestFiles.path ⟨.utf8 ["", "tmp", "new1"]⟩ = .utf8 ["", "tmp", "new1"] ∧
    tf0.path = tf0.path :=
  ⟨(C8_pathStable ⟨.utf8 ["", "tmp", "new1"]⟩ tf0 tf0 fs0
      ⟨fs0.files, ["", "tmp", "new1"] :: fs0.dirs⟩ fs0
      ⟨[(["", "tmp", "td0", "a.txt"], "x")], fs0.dirs⟩ "a.txt" "x"
      ["", "tmp", "new1"] (.ok ["", "tmp", "new1"])).1 rfl rfl,
   (C8_pathStable ⟨.utf8 ["", "tmp", "new1"]⟩ tf0 tf0 fs0
      ⟨fs0.files, ["", "tmp", "new1"] :: fs0.dirs⟩ fs0
      ⟨[(["", "tmp", "td0", "a.txt"], "x")], fs0.dirs⟩ "a.txt" "x"
      ["", "tmp", "new1"] (.ok ["", "tmp", "new1"])).2 rfl⟩

/-- C9: try_new surfaces an OS provisioning failure as the TempDirError
variant wrapping that very failure — never a path or write error — and on
success the returned object's root path exists as a directory holding no
files. -/
theorem C9_tryNew (fs : FS) (osOutcome : Except IoError (List String)) :
    (∀ e, osOutcome = .error e →
      TestFiles.tryNew fs osOutcome = .error (.TempDirError e)) ∧
    (∀ d tf' fs', osOutcome = .ok d →
      fs.files.filter (fun e => isUnder d e.1) = [] →
      TestFiles.tryNew fs osOutcome = .ok (tf', fs') →
      tf'.path = .utf8 d ∧ d ∈ fs'.dirs ∧
      fs'.files.filter (fun e => isUnder d e.1) = []) := by
  constructor
  · intro e he
    subst he
    rfl
  · intro d tf' fs' hd hemp hok
    subst hd
    unfold TestFiles.tryNew tempdir at hok
    simp only [Except.ok.injEq, Prod.mk.injEq] at hok
    obtain ⟨h1, h2⟩ := hok
    subst h1
    subst h2
    exact ⟨rfl, List.mem_cons_self _ _, hemp⟩

/-- C9 witness: a concrete successful provisioning on a filesystem with no
files under the fresh directory. -/
theorem C9_tryNew_witness :
    TestFiles.path ⟨.utf8 ["", "tmp", "new2"]⟩ = .utf8 ["", "tmp", "new2"] ∧
    ["", "tmp", "new2"] ∈ FS.dirs ⟨fs0.files, ["", "tmp", "new2"] :: fs0.dirs⟩ ∧
    (FS.files ⟨fs0.files, ["", "tmp", "new2"] :: fs0.dirs⟩).filter
      (fun e => isUnder ["", "tmp", "new2"] e.1) = [] :=
  (C9_tryNew fs0 (.ok ["", "tmp", "new2"])).2 ["", "tmp", "new2"]
    ⟨.utf8 ["", "tmp", "new2"]⟩ ⟨fs0.files, ["", "tmp", "new2"] :: fs0.dirs⟩
    rfl rfl rfl
